import Mathlib

/-!
Verification development for the rotor actor-runtime core
(actor lifecycle and message-dispatch engine).

The definitions below are a shallow embedding of the C++ sources:
  - include/rotor/handler.hpp   (handler_base_t, handler_t::call, std::hash)
  - src/rotor/actor_base.cpp    (do_shutdown, on_shutdown, unsubscribe,
                                 on_unsubscription, on_external_unsubscription,
                                 remove_subscription, on_subscription, ...)
Parts of the runtime that live in supervisor.cpp / behavior.cpp (the
supervisor drain loop, subscribe_actor, commit_unsubscription, the default
behavior step sequences) are not part of the source tree here; those are
modelled from the specification and are marked `Modelled from the spec:`
in their doc comments.

Machine integers (size_t) are modelled as Nat with explicit reduction
modulo 2 ^ 64 where C++ overflow semantics matter.
-/

namespace Rotor

/-- Width of size_t values: the modulus 2 ^ 64. -/
def size_t_mod : Nat := 2 ^ 64

/-- Lifecycle states of an actor / supervisor, from state.h via the spec
(section 3); the terminal state is spelled SHUTTED_DOWN as in the sources. -/
inductive state_t where
  | NEW
  | INITIALIZING
  | INITIALIZED
  | OPERATIONAL
  | SHUTTING_DOWN
  | SHUTTED_DOWN
  deriving DecidableEq, Repr

/-- Address identity: an opaque id plus a back reference (by id) to the
owning supervisor, mirroring address_t of the sources. Equality is value
equality of the pair, standing for pointer identity of the address object. -/
structure address_t where
  id : Nat
  supervisor : Nat
  deriving DecidableEq, Repr

/-- Embedding of handler_base_t (handler.hpp lines 76-115): message type
tag, handler type tag, owner-actor identity (raw pointer) and the
precalculated hash. -/
structure handler_base_t where
  message_type : Nat
  handler_type : Nat
  raw_actor_ptr : Nat
  precalc_hash : Nat
  deriving DecidableEq, Repr

/-- Embedding of the handler_base_t constructor (handler.hpp lines 95-100):
stores the two type tags and the actor identity and precalculates
h1 XOR (h2 << 1) in size_t arithmetic, where h1 is the handler type tag and
h2 the actor address reinterpreted as size_t. -/
def mk_handler_base (actor : Nat) (message_type_ handler_type_ : Nat) : handler_base_t :=
  { message_type := message_type_
    handler_type := handler_type_
    raw_actor_ptr := actor
    precalc_hash := (handler_type_ % size_t_mod) ^^^ ((actor <<< 1) % size_t_mod) }

/-- Embedding of handler_base_t::operator== (handler.hpp lines 102-105):
two handlers are equal iff their handler type tags and their raw actor
pointers coincide. -/
def handler_eq (a b : handler_base_t) : Bool :=
  a.handler_type == b.handler_type && a.raw_actor_ptr == b.raw_actor_ptr

/-- Embedding of std::hash for handler_ptr_t (handler.hpp lines 195-199):
returns the precalculated hash. -/
def hash_handler (h : handler_base_t) : Nat := h.precalc_hash

/-- Embedding of handler_t::call (handler.hpp lines 140-146 and 175-180):
the bound callback (an arbitrary state transformer f) runs iff the
envelope's type tag equals the handler's message type tag; otherwise the
state is returned untouched. -/
def handler_call {σ : Type} (h : handler_base_t) (f : σ → σ) (type_index : Nat) (st : σ) : σ :=
  if type_index = h.message_type then f st else st

/-- Embedding of actor_base_t::subscription_point_t (actor_base.h lines
60-65): a handler paired with an address. -/
structure subscription_point_t where
  handler : handler_base_t
  address : address_t
  deriving DecidableEq, Repr

/-- Match predicate used by actor_base_t::remove_subscription (line 104 of
actor_base.cpp): the point's address is the given address and the point's
handler compares equal (operator==) to the given handler. -/
def point_matches (addr : address_t) (h : handler_base_t) (p : subscription_point_t) : Bool :=
  p.address == addr && handler_eq p.handler h

/-- Embedding of actor_base_t::remove_subscription (actor_base.cpp lines
101-113): scan the points list with a reverse iterator and erase the first
match found from the back, i.e. the last matching element of the list;
`none` models falling off the loop into assert(0 && "no subscription
found"). -/
def remove_subscription (points : List subscription_point_t) (addr : address_t)
    (h : handler_base_t) : Option (List subscription_point_t) :=
  match points with
  | [] => none
  | p :: rest =>
    match remove_subscription rest addr h with
    | some rest' => some (p :: rest')
    | none => if point_matches addr h p then some rest else none

/-- Release-build semantics of remove_subscription: when the debug
assertion is compiled out, an unmatched removal leaves the list unchanged.
Used by the message-processing model below. -/
def remove_subscription_rel (points : List subscription_point_t) (addr : address_t)
    (h : handler_base_t) : List subscription_point_t :=
  (remove_subscription points addr h).getD points

/-- Message type tag for the subscription-confirmation payload. -/
def mt_sub_conf : Nat := 11
/-- Message type tag for the unsubscription-confirmation payload. -/
def mt_unsub_conf : Nat := 12
/-- Message type tag for the external-unsubscription payload. -/
def mt_ext_unsub : Nat := 13
/-- Message type tag for the commit-unsubscription payload. -/
def mt_commit_unsub : Nat := 14
/-- Message type tag for the init-request payload. -/
def mt_init_req : Nat := 15
/-- Message type tag for the init-confirmation payload. -/
def mt_init_conf : Nat := 16
/-- Message type tag for the start-actor payload. -/
def mt_start : Nat := 17
/-- Message type tag for the shutdown-trigger payload. -/
def mt_trigger : Nat := 18
/-- Message type tag for the shutdown-request payload. -/
def mt_shutdown_req : Nat := 19
/-- Message type tag for the shutdown-confirmation payload. -/
def mt_shutdown_conf : Nat := 20

/-- Handler type tag of actor_base_t::on_unsubscription. -/
def ht_on_unsubscription : Nat := 101
/-- Handler type tag of actor_base_t::on_external_unsubscription. -/
def ht_on_external_unsubscription : Nat := 102
/-- Handler type tag of actor_base_t::on_initialize. -/
def ht_on_init_request : Nat := 103
/-- Handler type tag of actor_base_t::on_start. -/
def ht_on_start : Nat := 104
/-- Handler type tag of actor_base_t::on_shutdown. -/
def ht_on_shutdown : Nat := 105
/-- Handler type tag of actor_base_t::on_shutdown_trigger. -/
def ht_on_shutdown_trigger : Nat := 106
/-- Handler type tag of actor_base_t::on_subscription. -/
def ht_on_subscription : Nat := 107
/-- Handler type tag of the supervisor's init-confirmation handler. -/
def ht_on_init_confirm : Nat := 108
/-- Handler type tag of the supervisor's shutdown-confirmation handler. -/
def ht_on_shutdown_confirm : Nat := 109
/-- Handler type tag of the supervisor's commit-unsubscription handler. -/
def ht_on_commit_unsubscription : Nat := 110

/-- Payloads of the framework messages exchanged by the lifecycle protocol,
from messages.hpp via their use sites in actor_base.cpp and the spec. -/
inductive payload_t where
  | subscription_confirmation (h : handler_base_t) (target : address_t)
  | unsubscription_confirmation (h : handler_base_t) (target : address_t) (callback : Option Nat)
  | external_unsubscription (h : handler_base_t) (target : address_t)
  | commit_unsubscription (h : handler_base_t) (target : address_t)
  | init_request
  | init_confirmation
  | start_actor
  | shutdown_trigger (target : address_t)
  | shutdown_request (reply_to : address_t)
  | shutdown_confirmation
  deriving DecidableEq, Repr

/-- Type tag carried by a payload (message_base_t::type_index). -/
def payload_tag : payload_t → Nat
  | .subscription_confirmation _ _ => mt_sub_conf
  | .unsubscription_confirmation _ _ _ => mt_unsub_conf
  | .external_unsubscription _ _ => mt_ext_unsub
  | .commit_unsubscription _ _ => mt_commit_unsub
  | .init_request => mt_init_req
  | .init_confirmation => mt_init_conf
  | .start_actor => mt_start
  | .shutdown_trigger _ => mt_trigger
  | .shutdown_request _ => mt_shutdown_req
  | .shutdown_confirmation => mt_shutdown_conf

/-- Message envelope: destination address plus payload. -/
structure msg_t where
  dest : address_t
  payload : payload_t
  deriving DecidableEq, Repr

/-- Observable events recorded while the model runs, used to express the
temporal claims: a handler invocation during dispatch, the removal of an
entry from the dispatch index, the behavior on_unsubscription notification
reaching the owner, and the shutdown_start call. -/
inductive event_t where
  | invoked (a : address_t) (h : handler_base_t)
  | index_removed (a : address_t) (h : handler_base_t)
  | owner_notified (a : address_t) (h : handler_base_t)
  | shutdown_started
  deriving DecidableEq, Repr

/-- State of one supervisor: its actor fields (state, points, stashed
requests) flattened together with the supervisor-only fields (queue,
subscription map, timers) and the event logs of the model. -/
structure supervisor_state_t where
  id : Nat
  address : address_t
  state : state_t
  points : List subscription_point_t
  init_request_stash : Bool
  shutdown_request_stash : Option address_t
  subscription_map : List subscription_point_t
  queue : List msg_t
  active_timers : List Nat
  behavior_unsub_calls : Nat
  log : List event_t
  deriving DecidableEq, Repr

/-- Embedding of actor_base_t::do_shutdown (actor_base.cpp line 38): the
message it sends, a shutdown_trigger carrying the actor's own address,
destined to the supervisor's address. -/
def actor_do_shutdown (self_addr sup_addr : address_t) : msg_t :=
  { dest := sup_addr, payload := .shutdown_trigger self_addr }

/-- Embedding of the three-argument actor_base_t::unsubscribe
(actor_base.cpp lines 68-78). The owner address argument stands for the
dereference h->actor_ptr->address. When the unsubscribing actor is the
supervisor owning the address, an unsubscription confirmation (with the
optional callback) is sent to the handler's owner; otherwise an external
unsubscription is sent there, after asserting that no callback was given
(`none` models that assertion firing). -/
def actor_unsubscribe (this_id : Nat) (owner_addr : address_t) (h : handler_base_t)
    (addr : address_t) (callback : Option Nat) : Option msg_t :=
  if addr.supervisor == this_id then
    some { dest := owner_addr, payload := .unsubscription_confirmation h addr callback }
  else if callback == none then
    some { dest := owner_addr, payload := .external_unsubscription h addr }
  else
    none

/-- Modelled from the spec: supervisor_t::commit_unsubscription (supervisor
sources are not in the tree) removes the entry for the given handler and
address from the dispatch index. -/
def commit_unsubscription (map : List subscription_point_t) (addr : address_t)
    (h : handler_base_t) : List subscription_point_t :=
  match map with
  | [] => []
  | p :: rest =>
    if point_matches addr h p then rest else p :: commit_unsubscription rest addr h

/-- Modelled from the spec: shutdown_finish (behavior sources are not in
the tree) replies to the stashed shutdown request, transitions the actor to
SHUTTED_DOWN, and cancels all pending timers. -/
def shutdown_finish (s : supervisor_state_t) : supervisor_state_t :=
  { s with
    state := .SHUTTED_DOWN
    queue := s.queue ++ (match s.shutdown_request_stash with
      | some reply => [{ dest := reply, payload := .shutdown_confirmation }]
      | none => [])
    active_timers := [] }

/-- Modelled from the spec: the behavior on_unsubscription hook detects
completion of the shutdown unsubscription sequence (it is only entered once
the points list is empty while SHUTTING_DOWN) and calls shutdown_finish.
The call counter and the owner_notified event record its invocation. -/
def behavior_on_unsubscription (s : supervisor_state_t) (addr : address_t)
    (h : handler_base_t) : supervisor_state_t :=
  shutdown_finish
    { s with
      behavior_unsub_calls := s.behavior_unsub_calls + 1
      log := s.log ++ [.owner_notified addr h] }

/-- Embedding of actor_base_t::on_subscription (actor_base.cpp lines
64-66): append the confirmed subscription point to the actor's points. -/
def exec_on_subscription (s : supervisor_state_t) (h : handler_base_t)
    (target : address_t) : supervisor_state_t :=
  { s with points := s.points ++ [{ handler := h, address := target }] }

/-- Embedding of actor_base_t::on_unsubscription (actor_base.cpp lines
80-88): remove the point from the actor's points, commit the removal in the
supervisor's dispatch index, and if the points are now empty while the
actor is SHUTTING_DOWN, enter the behavior's on_unsubscription hook. -/
def exec_on_unsubscription (s : supervisor_state_t) (h : handler_base_t)
    (target : address_t) : supervisor_state_t :=
  let pts := remove_subscription_rel s.points target h
  let s' := { s with
    points := pts
    subscription_map := commit_unsubscription s.subscription_map target h
    log := s.log ++ [.index_removed target h] }
  if pts.isEmpty && s'.state == .SHUTTING_DOWN then
    behavior_on_unsubscription s' target h
  else s'

/-- Embedding of actor_base_t::on_external_unsubscription (actor_base.cpp
lines 90-99): remove the point locally, send a commit_unsubscription for it
to the address of the supervisor owning the target address (looked up via
the environment, standing for addr->supervisor.address), and enter the
behavior hook if the points are now empty while SHUTTING_DOWN. -/
def exec_on_external_unsubscription (env : Nat → address_t) (s : supervisor_state_t)
    (h : handler_base_t) (target : address_t) : supervisor_state_t :=
  let pts := remove_subscription_rel s.points target h
  let s' := { s with
    points := pts
    queue := s.queue ++ [{ dest := env target.supervisor, payload := .commit_unsubscription h target }] }
  if pts.isEmpty && s'.state == .SHUTTING_DOWN then
    behavior_on_unsubscription s' target h
  else s'

/-- Embedding of actor_base_t::on_initialize (actor_base.cpp lines 42-45)
combined with the default behavior init sequence. Modelled from the spec:
the default behavior immediately calls init_finish, which replies to the
stashed init request; the reply is the init confirmation sent back to the
supervisor's address. -/
def exec_on_init_request (s : supervisor_state_t) : supervisor_state_t :=
  { s with
    init_request_stash := true
    queue := s.queue ++ [{ dest := s.address, payload := .init_confirmation }] }

/-- Embedding of actor_base_t::on_start (actor_base.cpp line 47): the actor
becomes OPERATIONAL. -/
def exec_on_start (s : supervisor_state_t) : supervisor_state_t :=
  { s with state := .OPERATIONAL }

/-- Embedding of actor_base_t::on_shutdown (actor_base.cpp lines 49-52)
combined with the default behavior shutdown sequence. The request envelope
is stashed and shutdown_start runs. Modelled from the spec: the behavior
sets the state to SHUTTING_DOWN and iterates the points list issuing an
unsubscribe for each; the list is walked in reverse subscription order, so
that the on_unsubscription handler, subscribed first in do_initialize, is
released last and can still receive the other confirmations. If the points
list is already empty, shutdown_finish runs at once. -/
def exec_on_shutdown (s : supervisor_state_t) (reply_to : address_t) : supervisor_state_t :=
  let s' : supervisor_state_t := { s with
    shutdown_request_stash := some reply_to
    state := .SHUTTING_DOWN
    log := s.log ++ [.shutdown_started] }
  if s'.points.isEmpty then
    shutdown_finish s'
  else
    { s' with
      queue := s'.queue ++ s'.points.reverse.filterMap
        (fun p => actor_unsubscribe s'.id s'.address p.handler p.address none) }

/-- Modelled from the spec: the supervisor's on_shutdown_trigger override
answers a shutdown trigger by sending a shutdown_request to the target
actor's address, carrying the supervisor's address for the reply. -/
def exec_on_shutdown_trigger (s : supervisor_state_t) (target : address_t) : supervisor_state_t :=
  { s with queue := s.queue ++ [{ dest := target, payload := .shutdown_request s.address }] }

/-- Modelled from the spec: on the init confirmation the supervisor
transitions the confirmed actor (itself, in the childless model) to
INITIALIZED and sends start_actor to it. -/
def exec_on_init_confirm (s : supervisor_state_t) : supervisor_state_t :=
  { s with
    state := .INITIALIZED
    queue := s.queue ++ [{ dest := s.address, payload := .start_actor }] }

/-- Modelled from the spec: the supervisor's handler for a
commit_unsubscription message removes the committed entry from its
dispatch index. -/
def exec_on_commit_unsubscription (s : supervisor_state_t) (h : handler_base_t)
    (target : address_t) : supervisor_state_t :=
  { s with subscription_map := commit_unsubscription s.subscription_map target h }

/-- Dispatch of one recipient handler for one message: the tag guard of
handler_t::call, then the framework callback selected by the handler type
tag. Handler type tags outside the framework set leave the state unchanged
(their user callbacks are outside the modelled core). -/
def exec_handler (env : Nat → address_t) (s : supervisor_state_t) (h : handler_base_t)
    (m : msg_t) : supervisor_state_t :=
  if payload_tag m.payload ≠ h.message_type then s
  else
    match m.payload with
    | .subscription_confirmation hh target =>
      if h.handler_type = ht_on_subscription then exec_on_subscription s hh target else s
    | .unsubscription_confirmation hh target _cb =>
      if h.handler_type = ht_on_unsubscription then exec_on_unsubscription s hh target else s
    | .external_unsubscription hh target =>
      if h.handler_type = ht_on_external_unsubscription then
        exec_on_external_unsubscription env s hh target
      else s
    | .commit_unsubscription hh target =>
      if h.handler_type = ht_on_commit_unsubscription then
        exec_on_commit_unsubscription s hh target
      else s
    | .init_request =>
      if h.handler_type = ht_on_init_request then exec_on_init_request s else s
    | .init_confirmation =>
      if h.handler_type = ht_on_init_confirm then exec_on_init_confirm s else s
    | .start_actor =>
      if h.handler_type = ht_on_start then exec_on_start s else s
    | .shutdown_trigger target =>
      if h.handler_type = ht_on_shutdown_trigger then exec_on_shutdown_trigger s target else s
    | .shutdown_request reply_to =>
      if h.handler_type = ht_on_shutdown then exec_on_shutdown s reply_to else s
    | .shutdown_confirmation => s

/-- Modelled from the spec: the recipients of a message are the entries of
the dispatch index under the destination address whose handler accepts the
message's type tag, in insertion order. -/
def recipients (s : supervisor_state_t) (m : msg_t) : List subscription_point_t :=
  s.subscription_map.filter
    (fun p => p.address == m.dest && p.handler.message_type == payload_tag m.payload)

/-- Modelled from the spec: delivery of one message pops it from the queue
(done by the caller) and invokes every matching handler; the recipient list
is the snapshot taken before the first invocation, so the current dispatch
iteration completes even if a handler unsubscribes itself. Each invocation
is recorded in the event log. -/
def deliver_one (env : Nat → address_t) (s : supervisor_state_t) (m : msg_t) :
    supervisor_state_t :=
  (recipients s m).foldl
    (fun st p =>
      exec_handler env { st with log := st.log ++ [.invoked m.dest p.handler] } p.handler m)
    s

/-- Modelled from the spec: supervisor_t::do_process repeatedly pops one
envelope and delivers it until the queue is empty; the fuel bounds the
number of pops. -/
def do_process (env : Nat → address_t) : Nat → supervisor_state_t → supervisor_state_t
  | 0, s => s
  | fuel + 1, s =>
    match s.queue with
    | [] => s
    | m :: rest => do_process env fuel (deliver_one env { s with queue := rest } m)

/-- Modelled from the spec: supervisor_t::subscribe_actor appends the
handler to the dispatch index under the address and emits a subscription
confirmation to the handler's owner. -/
def subscribe_actor (s : supervisor_state_t) (h : handler_base_t) (addr owner_addr : address_t) :
    supervisor_state_t :=
  { s with
    subscription_map := s.subscription_map ++ [{ handler := h, address := addr }]
    queue := s.queue ++ [{ dest := owner_addr, payload := .subscription_confirmation h addr }] }

/-- The framework handlers subscribed by actor_base_t::do_initialize
(actor_base.cpp lines 28-34), in subscription order. -/
def base_handlers (actor_id : Nat) : List handler_base_t :=
  [ mk_handler_base actor_id mt_unsub_conf ht_on_unsubscription
  , mk_handler_base actor_id mt_ext_unsub ht_on_external_unsubscription
  , mk_handler_base actor_id mt_init_req ht_on_init_request
  , mk_handler_base actor_id mt_start ht_on_start
  , mk_handler_base actor_id mt_shutdown_req ht_on_shutdown
  , mk_handler_base actor_id mt_trigger ht_on_shutdown_trigger
  , mk_handler_base actor_id mt_sub_conf ht_on_subscription ]

/-- The handlers subscribed when a supervisor initializes: the actor-base
set followed by the supervisor-only handlers. Modelled from the spec for
the supervisor-only part. -/
def sup_handlers (actor_id : Nat) : List handler_base_t :=
  base_handlers actor_id ++
  [ mk_handler_base actor_id mt_init_conf ht_on_init_confirm
  , mk_handler_base actor_id mt_shutdown_conf ht_on_shutdown_confirm
  , mk_handler_base actor_id mt_commit_unsub ht_on_commit_unsubscription ]

/-- Construction of a childless root supervisor: do_initialize subscribes
the framework handlers and sets the state to INITIALIZING (actor_base.cpp
lines 20-36); modelled from the spec, startup then enqueues an init request
to itself. -/
def new_supervisor (sup_id : Nat) (addr : address_t) : supervisor_state_t :=
  let s0 : supervisor_state_t :=
    { id := sup_id, address := addr, state := .NEW, points := []
      init_request_stash := false, shutdown_request_stash := none
      subscription_map := [], queue := [], active_timers := []
      behavior_unsub_calls := 0, log := [] }
  let s1 := (sup_handlers sup_id).foldl (fun st h => subscribe_actor st h addr addr) s0
  { s1 with
    state := .INITIALIZING
    queue := s1.queue ++ [{ dest := addr, payload := .init_request }] }

/-- Embedding of actor_base_t::do_shutdown for the supervisor itself: the
trigger message lands in its own queue. -/
def sup_do_shutdown (s : supervisor_state_t) : supervisor_state_t :=
  { s with queue := s.queue ++ [actor_do_shutdown s.address s.address] }

/-- The concrete childless supervisor of the start-stop scenario. -/
def scenario_addr : address_t := { id := 10, supervisor := 1 }

/-- Environment mapping supervisor ids to their main address in the
single-supervisor scenario. -/
def scenario_env : Nat → address_t := fun _ => scenario_addr

/-- The scenario supervisor right after construction. -/
def scenario_sup : supervisor_state_t := new_supervisor 1 scenario_addr

/-- The scenario supervisor after the first drain: it should be
OPERATIONAL. -/
def scenario_operational : supervisor_state_t :=
  do_process scenario_env 40 scenario_sup

/-- The scenario supervisor after do_shutdown plus the second drain. -/
def scenario_final : supervisor_state_t :=
  do_process scenario_env 40 (sup_do_shutdown scenario_operational)

/-- Recognizer for handler-invocation events in the model's log. -/
def event_is_invocation : event_t → Bool
  | .invoked _ _ => true
  | _ => false

/-- Cleanliness of the dispatch index with respect to one (address,
handler) key: no entry of the subscription map matches it. -/
def map_clean (a : address_t) (h : handler_base_t) (s : supervisor_state_t) : Prop :=
  ∀ p ∈ s.subscription_map, point_matches a h p = false

/-- Invariant used for the unsubscribe-completeness claim: the dispatch
index is clean for (a, h) and every invocation of an h-equal handler on a
message to a recorded in the log predates the baseline log L0. -/
def unsub_invariant (a : address_t) (h : handler_base_t) (L0 : List event_t)
    (s : supervisor_state_t) : Prop :=
  map_clean a h s ∧
  ∀ h', event_t.invoked a h' ∈ s.log →
    event_t.invoked a h' ∈ L0 ∨ handler_eq h' h = false

/-- The local unsubscription confirmation message that the supervisor sends
itself for one of its own subscription points during shutdown. -/
def ucmsg (owner_addr : address_t) (p : subscription_point_t) : msg_t :=
  { dest := owner_addr
    payload := .unsubscription_confirmation p.handler p.address none }

/-- The subscription point of the framework on_unsubscription handler of
the actor with the given identity, on its main address; the first point
subscribed by do_initialize and the last released during shutdown. -/
def unsub_point (actor_id : Nat) (owner_addr : address_t) : subscription_point_t :=
  { handler := mk_handler_base actor_id mt_unsub_conf ht_on_unsubscription
    address := owner_addr }

/-- The subscription points of a freshly initialized supervisor with id 1
on its main address, in subscription order. -/
def c1_points : List subscription_point_t :=
  (sup_handlers 1).map (fun h => { handler := h, address := scenario_addr })

/-- The points of `c1_points` other than the on_unsubscription one. -/
def c1_tail : List subscription_point_t := c1_points.tail

/-- An operational childless supervisor, its points and dispatch index
holding exactly the framework handlers, about to receive the shutdown
request. -/
def c1_state : supervisor_state_t :=
  { id := 1, address := scenario_addr, state := .OPERATIONAL
    points := c1_points
    init_request_stash := true, shutdown_request_stash := none
    subscription_map := c1_points, queue := [], active_timers := []
    behavior_unsub_calls := 0, log := [] }

end Rotor

namespace Rotor

theorem remove_subscription_none_iff (points : List subscription_point_t) (a : address_t)
    (h : handler_base_t) :
    remove_subscription points a h = none ↔ ∀ p ∈ points, point_matches a h p = false := by
  induction points with
  | nil => simp [remove_subscription]
  | cons p rest ih =>
    unfold remove_subscription
    cases hrem : remove_subscription rest a h with
    | some r =>
      simp only [hrem]
      constructor
      · intro hcontra; cases hcontra
      · intro hall
        have : remove_subscription rest a h = none := by
          rw [ih]
          intro q hq; exact hall q (List.mem_cons_of_mem p hq)
        rw [this] at hrem; cases hrem
    | none =>
      simp only [hrem]
      rw [ih] at hrem
      by_cases hp : point_matches a h p = true
      · simp [hp]
      · simp only [Bool.not_eq_true] at hp
        simp [hp]
        intro q hq
        exact hrem q hq

theorem remove_subscription_last (pre post : List subscription_point_t)
    (p : subscription_point_t) (a : address_t) (h : handler_base_t)
    (hp : point_matches a h p = true)
    (hpost : ∀ q ∈ post, point_matches a h q = false) :
    remove_subscription (pre ++ p :: post) a h = some (pre ++ post) := by
  induction pre with
  | nil =>
    simp only [List.nil_append]
    unfold remove_subscription
    have hnone : remove_subscription post a h = none :=
      (remove_subscription_none_iff post a h).mpr hpost
    simp [hnone, hp]
  | cons x pre' ih =>
    simp only [List.cons_append]
    unfold remove_subscription
    simp [ih]

/-- Claim C6: invoking a handler's call on an envelope executes the bound
callback iff the envelope's type tag equals the handler's message type tag;
on a mismatch the call is a silent no-op for every callback, and a message
whose destination has no tag-matching handler in the dispatch index is
dropped without any state change. -/
theorem handler_call_tag_match (h : handler_base_t) (ti : Nat) :
    (∀ (σ : Type) (f : σ → σ) (st : σ), ti = h.message_type → handler_call h f ti st = f st) ∧
    (∀ (σ : Type) (f : σ → σ) (st : σ), ti ≠ h.message_type → handler_call h f ti st = st) ∧
    (∀ (env : Nat → address_t) (s : supervisor_state_t) (m : msg_t),
      (∀ p ∈ s.subscription_map,
        p.address = m.dest → p.handler.message_type ≠ payload_tag m.payload) →
      deliver_one env s m = s) := by
  refine ⟨?_, ?_, ?_⟩
  · intro σ f st hti
    simp [handler_call, hti]
  · intro σ f st hti
    simp [handler_call, hti]
  · intro env s m hnone
    have hrec : recipients s m = [] := by
      unfold recipients
      rw [List.filter_eq_nil_iff]
      intro p hp
      intro hcontra
      have h1 := (Bool.and_eq_true _ _).mp hcontra
      have ha : p.address = m.dest := by
        have := h1.1; simpa using this
      have hm : p.handler.message_type = payload_tag m.payload := by
        have := h1.2; simpa using this
      exact hnone p hp ha hm
    unfold deliver_one
    rw [hrec]
    rfl

/-- Claim C6 witness: a concrete handler, a concrete mismatched tag and a
concrete supervisor state exercising all three conjuncts. -/
theorem handler_call_tag_match_witness :
    handler_call (mk_handler_base 1 5 9) Nat.succ 5 0 = 1 ∧
    handler_call (mk_handler_base 1 5 9) Nat.succ 6 0 = 0 ∧
    deliver_one scenario_env
      { scenario_sup with queue := [] }
      { dest := { id := 99, supervisor := 1 }, payload := .start_actor } =
      { scenario_sup with queue := [] } := by
  have h := handler_call_tag_match (mk_handler_base 1 5 9) 5
  have h' := handler_call_tag_match (mk_handler_base 1 5 9) 6
  refine ⟨?_, ?_, ?_⟩
  · exact h.1 Nat Nat.succ 0 (by decide)
  · exact h'.2.1 Nat Nat.succ 0 (by decide)
  · exact h'.2.2 scenario_env { scenario_sup with queue := [] }
      { dest := { id := 99, supervisor := 1 }, payload := .start_actor }
      (by decide)

/-- Claim C7: two handlers compare equal iff their handler type tags and
their owner-actor identities coincide; consequently a freshly constructed
handler object with the same handler type tag and owner removes the entry
that the original handler object created. -/
theorem handler_eq_iff_and_fresh_removal :
    (∀ h1 h2 : handler_base_t, handler_eq h1 h2 = true ↔
      (h1.handler_type = h2.handler_type ∧ h1.raw_actor_ptr = h2.raw_actor_ptr)) ∧
    (∀ (orig : handler_base_t) (actor mt ht : Nat) (addr : address_t)
       (pre post : List subscription_point_t),
      orig.handler_type = ht → orig.raw_actor_ptr = actor →
      (∀ q ∈ post, point_matches addr (mk_handler_base actor mt ht) q = false) →
      remove_subscription (pre ++ { handler := orig, address := addr } :: post) addr
        (mk_handler_base actor mt ht) = some (pre ++ post)) := by
  constructor
  · intro h1 h2
    unfold handler_eq
    simp
  · intro orig actor mt ht addr pre post hht hact hpost
    apply remove_subscription_last
    · unfold point_matches handler_eq mk_handler_base
      simp [hht, hact]
    · exact hpost

/-- Claim C7 witness: a fresh handler object (different message type tag,
hence a different hash input field than none of the compared ones) removes
the point holding the original handler. -/
theorem handler_eq_iff_and_fresh_removal_witness :
    handler_eq (mk_handler_base 3 5 9) (mk_handler_base 3 7 9) = true ∧
    remove_subscription
      [ { handler := mk_handler_base 3 5 9, address := { id := 4, supervisor := 1 } } ]
      { id := 4, supervisor := 1 } (mk_handler_base 3 7 9) = some [] := by
  constructor
  · exact (handler_eq_iff_and_fresh_removal.1 _ _).mpr (by constructor <;> rfl)
  · exact handler_eq_iff_and_fresh_removal.2 (mk_handler_base 3 5 9) 3 7 9
      { id := 4, supervisor := 1 } [] [] rfl rfl (by intro q hq; cases hq)

/-- Claim C8: removing a subscription point that is not present in the
points list falls through the scan and hits the debug assertion; the
embedding returns none exactly in that case. -/
theorem remove_subscription_asserts (points : List subscription_point_t)
    (addr : address_t) (h : handler_base_t)
    (habsent : ∀ p ∈ points, point_matches addr h p = false) :
    remove_subscription points addr h = none :=
  (remove_subscription_none_iff points addr h).mpr habsent

/-- Claim C8 witness: removing from a one-point list whose only entry is
for a different address triggers the assertion case. -/
theorem remove_subscription_asserts_witness :
    remove_subscription
      [ { handler := mk_handler_base 3 5 9, address := { id := 4, supervisor := 1 } } ]
      { id := 6, supervisor := 1 } (mk_handler_base 3 5 9) = none := by
  apply remove_subscription_asserts
  decide

/-- Claim C9: when the points list contains matching entries, the scan from
the back erases exactly the most recently appended matching entry and
leaves all other entries and their relative order unchanged. -/
theorem remove_subscription_removes_last (pre post : List subscription_point_t)
    (p : subscription_point_t) (addr : address_t) (h : handler_base_t)
    (hp : point_matches addr h p = true)
    (hpost : ∀ q ∈ post, point_matches addr h q = false) :
    remove_subscription (pre ++ p :: post) addr h = some (pre ++ post) :=
  remove_subscription_last pre post p addr h hp hpost

/-- Claim C9 witness: with two matching entries and a trailing non-matching
one, removal erases the second (more recently appended) matching entry and
keeps the rest in order. -/
theorem remove_subscription_removes_last_witness :
    remove_subscription
      [ { handler := mk_handler_base 3 5 9, address := { id := 4, supervisor := 1 } }
      , { handler := mk_handler_base 3 6 9, address := { id := 4, supervisor := 1 } }
      , { handler := mk_handler_base 8 5 7, address := { id := 4, supervisor := 1 } } ]
      { id := 4, supervisor := 1 } (mk_handler_base 3 5 9) =
    some
      [ { handler := mk_handler_base 3 5 9, address := { id := 4, supervisor := 1 } }
      , { handler := mk_handler_base 8 5 7, address := { id := 4, supervisor := 1 } } ] := by
  have := remove_subscription_removes_last
    [ { handler := mk_handler_base 3 5 9, address := { id := 4, supervisor := 1 } } ]
    [ { handler := mk_handler_base 8 5 7, address := { id := 4, supervisor := 1 } } ]
    { handler := mk_handler_base 3 6 9, address := { id := 4, supervisor := 1 } }
    { id := 4, supervisor := 1 } (mk_handler_base 3 5 9)
    (by decide) (by decide)
  simpa using this

/-- Claim C10: handler equality implies equality of the precalculated
hashes; the hash of a constructed handler is exactly the handler type tag
XOR the owner identity shifted left by one (in size_t arithmetic), and it
does not depend on the message type tag. -/
theorem handler_hash_consistent (a1 mt1 ht1 a2 mt2 ht2 : Nat) :
    (handler_eq (mk_handler_base a1 mt1 ht1) (mk_handler_base a2 mt2 ht2) = true →
      hash_handler (mk_handler_base a1 mt1 ht1) = hash_handler (mk_handler_base a2 mt2 ht2)) ∧
    hash_handler (mk_handler_base a1 mt1 ht1) =
      (ht1 % size_t_mod) ^^^ ((a1 <<< 1) % size_t_mod) ∧
    hash_handler (mk_handler_base a1 mt1 ht1) = hash_handler (mk_handler_base a1 mt2 ht1) := by
  refine ⟨?_, rfl, rfl⟩
  intro heq
  unfold handler_eq mk_handler_base at heq
  simp at heq
  unfold hash_handler mk_handler_base
  simp [heq.1, heq.2]

/-- Claim C10 witness: two equal handlers built from the same owner and
handler type tag but different message types share the hash value. -/
theorem handler_hash_consistent_witness :
    hash_handler (mk_handler_base 3 5 9) = hash_handler (mk_handler_base 3 7 9) := by
  exact (handler_hash_consistent 3 5 9 3 7 9).1 (by decide)

theorem do_process_cons (env : Nat → address_t) (n : Nat) (s : supervisor_state_t)
    (m : msg_t) (rest : List msg_t) (hq : s.queue = m :: rest) :
    do_process env (n + 1) s =
      do_process env n (deliver_one env { s with queue := rest } m) := by
  rw [do_process, hq]

theorem do_process_nil (env : Nat → address_t) (n : Nat) (s : supervisor_state_t)
    (hq : s.queue = []) : do_process env n s = s := by
  cases n with
  | zero => rw [do_process]
  | succ k => rw [do_process, hq]

theorem point_matches_refl (p : subscription_point_t) :
    point_matches p.address p.handler p = true := by
  simp [point_matches, handler_eq]

theorem commit_unsubscription_append_last (l : List subscription_point_t)
    (x : subscription_point_t)
    (hl : ∀ q ∈ l, point_matches x.address x.handler q = false) :
    commit_unsubscription (l ++ [x]) x.address x.handler = l := by
  induction l with
  | nil => simp [commit_unsubscription, point_matches_refl]
  | cons q rest ih =>
    have hq := hl q (List.mem_cons_self q rest)
    simp only [List.cons_append]
    unfold commit_unsubscription
    simp only [hq, Bool.false_eq_true, if_false]
    rw [ih (fun r hr => hl r (List.mem_cons_of_mem q hr))]

theorem remove_subscription_append_last (l : List subscription_point_t)
    (x : subscription_point_t) :
    remove_subscription (l ++ [x]) x.address x.handler = some l := by
  have h := remove_subscription_last l [] x x.address x.handler (point_matches_refl x)
    (by intro q hq; cases hq)
  simpa using h

theorem exec_on_unsub_no_hook (s : supervisor_state_t) (h : handler_base_t)
    (a : address_t) (hne : remove_subscription_rel s.points a h ≠ []) :
    exec_on_unsubscription s h a =
      { s with points := remove_subscription_rel s.points a h
               subscription_map := commit_unsubscription s.subscription_map a h
               log := s.log ++ [.index_removed a h] } := by
  have hcond : ¬(((remove_subscription_rel s.points a h).isEmpty &&
      s.state == state_t.SHUTTING_DOWN) = true) := by
    intro hc
    exact hne (List.isEmpty_iff.mp ((Bool.and_eq_true _ _).mp hc).1)
  simp only [exec_on_unsubscription]
  rw [if_neg hcond]

theorem exec_on_unsub_hook (s : supervisor_state_t) (h : handler_base_t)
    (a : address_t) (hempty : remove_subscription_rel s.points a h = [])
    (hstate : s.state = state_t.SHUTTING_DOWN) :
    exec_on_unsubscription s h a =
      { s with state := state_t.SHUTTED_DOWN
               points := remove_subscription_rel s.points a h
               subscription_map := commit_unsubscription s.subscription_map a h
               queue := s.queue ++ (match s.shutdown_request_stash with
                 | some reply => [{ dest := reply, payload := .shutdown_confirmation }]
                 | none => [])
               active_timers := []
               behavior_unsub_calls := s.behavior_unsub_calls + 1
               log := s.log ++ [.index_removed a h] ++ [.owner_notified a h] } := by
  have hcond : (((remove_subscription_rel s.points a h).isEmpty &&
      s.state == state_t.SHUTTING_DOWN) = true) := by
    rw [hempty, hstate]; rfl
  simp only [exec_on_unsubscription, behavior_on_unsubscription, shutdown_finish]
  rw [if_pos hcond]

theorem recipients_of_ucmsg (s : supervisor_state_t) (x : subscription_point_t)
    (P : List subscription_point_t) (i : Nat) (own : address_t)
    (hmap : s.subscription_map = unsub_point i own :: P)
    (hP : ∀ q ∈ P, q.handler.message_type ≠ mt_unsub_conf) :
    recipients s (ucmsg own x) = [unsub_point i own] := by
  unfold recipients
  rw [hmap, List.filter_cons]
  rw [if_pos (by simp [unsub_point, ucmsg, mk_handler_base, payload_tag])]
  have hnil : List.filter
      (fun p => p.address == (ucmsg own x).dest &&
        p.handler.message_type == payload_tag (ucmsg own x).payload) P = [] := by
    rw [List.filter_eq_nil_iff]
    intro q hq hc
    have h2 := ((Bool.and_eq_true _ _).mp hc).2
    have hqe : q.handler.message_type = mt_unsub_conf := by
      simpa [ucmsg, payload_tag] using h2
    exact hP q hq hqe
  rw [hnil]

theorem deliver_ucmsg (env : Nat → address_t) (s : supervisor_state_t)
    (x : subscription_point_t) (P : List subscription_point_t) (i : Nat)
    (own : address_t)
    (hmap : s.subscription_map = unsub_point i own :: P)
    (hP : ∀ q ∈ P, q.handler.message_type ≠ mt_unsub_conf) :
    deliver_one env s (ucmsg own x) =
      exec_on_unsubscription
        { s with log := s.log ++ [.invoked own (unsub_point i own).handler] }
        x.handler x.address := by
  unfold deliver_one
  rw [recipients_of_ucmsg s x P i own hmap hP]
  simp only [List.foldl_cons, List.foldl_nil]
  rfl

theorem filterMap_unsubscribe (i : Nat) (own : address_t)
    (l : List subscription_point_t) (hloc : ∀ p ∈ l, p.address.supervisor = i) :
    l.filterMap (fun p => actor_unsubscribe i own p.handler p.address none) =
      l.map (ucmsg own) := by
  induction l with
  | nil => rfl
  | cons p rest ih =>
    rw [List.filterMap_cons, List.map_cons]
    have hp : actor_unsubscribe i own p.handler p.address none = some (ucmsg own p) := by
      unfold actor_unsubscribe ucmsg
      simp [hloc p (List.mem_cons_self p rest)]
    rw [hp, ih (fun q hq => hloc q (List.mem_cons_of_mem p hq))]

theorem exec_on_shutdown_nonempty (s : supervisor_state_t) (reply : address_t)
    (hne : s.points ≠ []) :
    exec_on_shutdown s reply =
      { s with shutdown_request_stash := some reply
               state := state_t.SHUTTING_DOWN
               log := s.log ++ [.shutdown_started]
               queue := s.queue ++ s.points.reverse.filterMap
                 (fun p => actor_unsubscribe s.id s.address p.handler p.address none) } := by
  simp only [exec_on_shutdown]
  rw [if_neg (by simpa [List.isEmpty_iff] using hne)]

theorem drain_last_conf (env : Nat → address_t) (s : supervisor_state_t) (m : msg_t)
    (hm : s.subscription_map = []) (hq : s.queue = [m]) :
    do_process env 1 s = { s with queue := [] } := by
  rw [do_process_cons env 0 s m [] hq]
  have hrec : recipients { s with queue := [] } m = [] := by
    unfold recipients
    rw [show ({ s with queue := [] } : supervisor_state_t).subscription_map = [] from hm]
    rfl
  have hdel : deliver_one env { s with queue := [] } m = { s with queue := [] } := by
    unfold deliver_one
    rw [hrec]
    rfl
  rw [hdel, do_process]

theorem drain_aux (env : Nat → address_t) (P : List subscription_point_t) :
    ∀ (s : supervisor_state_t) (reply : address_t) (i : Nat) (own : address_t),
    s.state = state_t.SHUTTING_DOWN →
    s.shutdown_request_stash = some reply →
    s.points = unsub_point i own :: P →
    s.subscription_map = unsub_point i own :: P →
    s.queue = P.reverse.map (ucmsg own) ++ [ucmsg own (unsub_point i own)] →
    (∀ q ∈ P, q.handler.message_type ≠ mt_unsub_conf) →
    (unsub_point i own :: P).Pairwise
      (fun p q => point_matches q.address q.handler p = false) →
    ((do_process env (P.length + 2) s).state = state_t.SHUTTED_DOWN ∧
     (do_process env (P.length + 2) s).queue = [] ∧
     (do_process env (P.length + 2) s).subscription_map = [] ∧
     (do_process env (P.length + 2) s).points = [] ∧
     (do_process env (P.length + 2) s).active_timers = []) := by
  induction P using List.reverseRecOn with
  | nil =>
    intro s reply i own hstate hstash hpts hmap hq hP hpair
    have hq1 : s.queue = ucmsg own (unsub_point i own) :: [] := by simpa using hq
    have hremove : remove_subscription_rel s.points
        (unsub_point i own).address (unsub_point i own).handler = [] := by
      unfold remove_subscription_rel
      rw [hpts, show [unsub_point i own] = [] ++ [unsub_point i own] from rfl,
        remove_subscription_append_last]
      rfl
    have hcommit : commit_unsubscription s.subscription_map
        (unsub_point i own).address (unsub_point i own).handler = [] := by
      rw [hmap, show [unsub_point i own] = [] ++ [unsub_point i own] from rfl]
      exact commit_unsubscription_append_last [] (unsub_point i own)
        (by intro q hq'; cases hq')
    have hf : ([] : List subscription_point_t).length + 2 = 1 + 1 := rfl
    rw [hf, do_process_cons env 1 s _ _ hq1]
    rw [deliver_ucmsg env { s with queue := [] } (unsub_point i own) [] i own hmap hP]
    rw [exec_on_unsub_hook _ _ _ ?hempty ?hstate2]
    case hempty => exact hremove
    case hstate2 => exact hstate
    rw [drain_last_conf env _ _ ?hmapnil ?hq4]
    case hmapnil => exact hcommit
    case hq4 =>
      exact (show ([] : List msg_t) ++ (match s.shutdown_request_stash with
        | some r => [{ dest := r, payload := payload_t.shutdown_confirmation }]
        | none => ([] : List msg_t)) =
          [{ dest := reply, payload := payload_t.shutdown_confirmation }] by
        rw [hstash]
        rfl)
    exact ⟨rfl, rfl, hcommit, hremove, rfl⟩
  | append_singleton Ps x ih =>
    intro s reply i own hstate hstash hpts hmap hq hP hpair
    have hpair' : ((unsub_point i own :: Ps) ++ [x]).Pairwise
        (fun p q => point_matches q.address q.handler p = false) := by
      rw [List.cons_append]; exact hpair
    have hearlier : ∀ q ∈ unsub_point i own :: Ps,
        point_matches x.address x.handler q = false := by
      intro q hq'
      exact (List.pairwise_append.mp hpair').2.2 q hq' x (List.mem_singleton_self x)
    have hremove : remove_subscription_rel s.points x.address x.handler =
        unsub_point i own :: Ps := by
      unfold remove_subscription_rel
      rw [hpts, ← List.cons_append, remove_subscription_append_last]
      rfl
    have hcommit : commit_unsubscription s.subscription_map x.address x.handler =
        unsub_point i own :: Ps := by
      rw [hmap, ← List.cons_append]
      exact commit_unsubscription_append_last _ x hearlier
    have hq1 : s.queue = ucmsg own x ::
        (Ps.reverse.map (ucmsg own) ++ [ucmsg own (unsub_point i own)]) := by
      rw [hq]
      simp [List.reverse_append]
    have hf : (Ps ++ [x]).length + 2 = (Ps.length + 2) + 1 := by
      rw [List.length_append]
      rfl
    rw [hf, do_process_cons env (Ps.length + 2) s _ _ hq1]
    rw [deliver_ucmsg env
      { s with queue := Ps.reverse.map (ucmsg own) ++ [ucmsg own (unsub_point i own)] }
      x (Ps ++ [x]) i own hmap hP]
    rw [exec_on_unsub_no_hook _ _ _ ?hne]
    case hne =>
      show remove_subscription_rel s.points x.address x.handler ≠ []
      rw [hremove]
      intro hc; cases hc
    apply ih _ reply i own
    · exact hstate
    · exact hstash
    · exact hremove
    · exact hcommit
    · rfl
    · intro q hq'
      exact hP q (List.mem_append_left _ hq')
    · exact (List.pairwise_append.mp hpair').1

/-- Claim C1: a childless supervisor driven by do_process reaches
OPERATIONAL, and after do_shutdown plus a second drain it is SHUTTED_DOWN
with empty queue, empty subscription map, empty points and zero active
timers; moreover, for every supervisor whose points and dispatch index hold
its framework handlers (the on_unsubscription point first, pairwise
distinct, all local, no other handler consuming unsubscription
confirmations) and whose queue is drained, receiving the shutdown request
leads to SHUTTED_DOWN with empty queue, empty index, empty points and no
timers. -/
theorem supervisor_shutdown_clean :
    (scenario_operational.state = state_t.OPERATIONAL ∧
     scenario_final.state = state_t.SHUTTED_DOWN ∧
     scenario_final.queue = [] ∧
     scenario_final.subscription_map = [] ∧
     scenario_final.points = [] ∧
     scenario_final.active_timers = []) ∧
    (∀ (env : Nat → address_t) (P : List subscription_point_t)
       (s : supervisor_state_t) (reply : address_t),
      s.points = unsub_point s.id s.address :: P →
      s.subscription_map = unsub_point s.id s.address :: P →
      s.queue = [] →
      s.address.supervisor = s.id →
      (∀ q ∈ P, q.address.supervisor = s.id) →
      (∀ q ∈ P, q.handler.message_type ≠ mt_unsub_conf) →
      (unsub_point s.id s.address :: P).Pairwise
        (fun p q => point_matches q.address q.handler p = false) →
      ((do_process env (P.length + 2) (exec_on_shutdown s reply)).state =
          state_t.SHUTTED_DOWN ∧
       (do_process env (P.length + 2) (exec_on_shutdown s reply)).queue = [] ∧
       (do_process env (P.length + 2) (exec_on_shutdown s reply)).subscription_map = [] ∧
       (do_process env (P.length + 2) (exec_on_shutdown s reply)).points = [] ∧
       (do_process env (P.length + 2) (exec_on_shutdown s reply)).active_timers = [])) := by
  constructor
  · decide
  · intro env P s reply hpts hmap hq hown hloc hP hpair
    have hne : s.points ≠ [] := by rw [hpts]; intro hc; cases hc
    rw [exec_on_shutdown_nonempty s reply hne]
    apply drain_aux env P _ reply s.id s.address
    · rfl
    · rfl
    · exact hpts
    · exact hmap
    · show s.queue ++ s.points.reverse.filterMap _ = _
      rw [hq, hpts, List.nil_append]
      rw [filterMap_unsubscribe s.id s.address _ ?hloc2]
      case hloc2 =>
        intro p hp
        rcases List.mem_reverse.mp hp with hp'
        rcases List.mem_cons.mp hp' with rfl | hp''
        · exact hown
        · exact hloc p hp''
      simp [List.reverse_cons]
    · exact hP
    · exact hpair

/-- Claim C1 witness: the concrete operational supervisor with its ten
framework points satisfies the hypotheses, and the drive through the
shutdown request drains it to SHUTTED_DOWN with everything empty. -/
theorem supervisor_shutdown_clean_witness :
    c1_state.points = unsub_point c1_state.id c1_state.address :: c1_tail ∧
    (do_process scenario_env (c1_tail.length + 2)
      (exec_on_shutdown c1_state scenario_addr)).state = state_t.SHUTTED_DOWN ∧
    (do_process scenario_env (c1_tail.length + 2)
      (exec_on_shutdown c1_state scenario_addr)).subscription_map = [] ∧
    (do_process scenario_env (c1_tail.length + 2)
      (exec_on_shutdown c1_state scenario_addr)).points = [] := by
  have h := supervisor_shutdown_clean.2 scenario_env c1_tail c1_state scenario_addr
    (by decide) (by decide) rfl (by decide) (by decide) (by decide) (by decide)
  exact ⟨by decide, h.1, h.2.2.1, h.2.2.2.1⟩

theorem commit_unsubscription_subset (l : List subscription_point_t) (a : address_t)
    (h : handler_base_t) : ∀ p ∈ commit_unsubscription l a h, p ∈ l := by
  induction l with
  | nil => intro p hp; cases hp
  | cons q rest ih =>
    intro p hp
    unfold commit_unsubscription at hp
    by_cases hq : point_matches a h q = true
    · simp only [hq, if_true] at hp
      exact List.mem_cons_of_mem q hp
    · simp only [Bool.not_eq_true] at hq
      simp only [hq, Bool.false_eq_true, if_false, List.mem_cons] at hp
      rcases hp with rfl | hp
      · exact List.mem_cons_self p rest
      · exact List.mem_cons_of_mem q (ih p hp)

theorem commit_unsubscription_clean (l : List subscription_point_t) (a : address_t)
    (h : handler_base_t) (hc : l.countP (point_matches a h) ≤ 1) :
    ∀ p ∈ commit_unsubscription l a h, point_matches a h p = false := by
  induction l with
  | nil => intro p hp; cases hp
  | cons q rest ih =>
    intro p hp
    unfold commit_unsubscription at hp
    by_cases hq : point_matches a h q = true
    · simp only [hq, if_true] at hp
      have hzero : rest.countP (point_matches a h) = 0 := by
        rw [List.countP_cons_of_pos _ rest hq] at hc; omega
      have := List.countP_eq_zero.mp hzero p hp
      simpa using this
    · simp only [Bool.not_eq_true] at hq
      simp only [hq, Bool.false_eq_true, if_false, List.mem_cons] at hp
      rcases hp with rfl | hp
      · exact hq
      · apply ih ?_ p hp
        rwa [List.countP_cons_of_neg _ rest (by simp [hq])] at hc

theorem exec_on_unsubscription_map (s : supervisor_state_t) (h : handler_base_t)
    (t : address_t) :
    (exec_on_unsubscription s h t).subscription_map =
      commit_unsubscription s.subscription_map t h := by
  simp only [exec_on_unsubscription, behavior_on_unsubscription, shutdown_finish]
  split <;> rfl

theorem exec_handler_map_subset (env : Nat → address_t) (s : supervisor_state_t)
    (hh : handler_base_t) (m : msg_t) (p : subscription_point_t)
    (hp : p ∈ (exec_handler env s hh m).subscription_map) : p ∈ s.subscription_map := by
  cases m with
  | mk dest pl =>
    cases pl <;>
      simp only [exec_handler, exec_on_subscription, exec_on_unsubscription,
        exec_on_external_unsubscription, exec_on_commit_unsubscription,
        exec_on_init_request, exec_on_init_confirm, exec_on_start,
        exec_on_shutdown_trigger, exec_on_shutdown, behavior_on_unsubscription,
        shutdown_finish] at hp <;>
      (repeat' split at hp) <;>
      first
        | exact hp
        | exact commit_unsubscription_subset _ _ _ p hp

theorem exec_handler_log_mem (env : Nat → address_t) (s : supervisor_state_t)
    (hh : handler_base_t) (m : msg_t) :
    ∀ e ∈ (exec_handler env s hh m).log, e ∈ s.log ∨ event_is_invocation e = false := by
  have happend : ∀ (L l : List event_t), (∀ e ∈ l, event_is_invocation e = false) →
      ∀ e ∈ L ++ l, e ∈ L ∨ event_is_invocation e = false := by
    intro L l hl e he
    rcases List.mem_append.mp he with h1 | h2
    · exact Or.inl h1
    · exact Or.inr (hl e h2)
  cases m with
  | mk dest pl =>
    cases pl <;>
      simp only [exec_handler, exec_on_subscription, exec_on_unsubscription,
        exec_on_external_unsubscription, exec_on_commit_unsubscription,
        exec_on_init_request, exec_on_init_confirm, exec_on_start,
        exec_on_shutdown_trigger, exec_on_shutdown, behavior_on_unsubscription,
        shutdown_finish] <;>
      (repeat' split) <;>
      first
        | exact fun e he => Or.inl he
        | (intro e he
           simp only [List.append_assoc] at he
           refine happend s.log _ ?_ e he
           intro e' he'
           rcases List.mem_cons.mp he' with rfl | he'
           · rfl
           · rcases List.mem_cons.mp he' with rfl | he'
             · rfl
             · cases he')
        | (intro e he
           refine happend s.log _ ?_ e he
           intro e' he'
           rcases List.mem_cons.mp he' with rfl | he'
           · rfl
           · cases he')

theorem deliver_one_inv (env : Nat → address_t) (m : msg_t) (a : address_t)
    (h : handler_base_t) (L0 : List event_t) (s : supervisor_state_t)
    (hs : unsub_invariant a h L0 s) :
    unsub_invariant a h L0 (deliver_one env s m) := by
  have hrecip : ∀ p ∈ recipients s m, m.dest = a → handler_eq p.handler h = false := by
    intro p hp hdest
    have hmem : p ∈ s.subscription_map := List.mem_of_mem_filter hp
    have hcond := List.of_mem_filter hp
    have haddr : p.address = m.dest := by
      have := ((Bool.and_eq_true _ _).mp hcond).1
      simpa using this
    have hclean := hs.1 p hmem
    unfold point_matches at hclean
    rw [haddr, hdest] at hclean
    simpa using hclean
  unfold deliver_one
  have main : ∀ (rs : List subscription_point_t),
      (∀ p ∈ rs, m.dest = a → handler_eq p.handler h = false) →
      ∀ st, unsub_invariant a h L0 st →
      unsub_invariant a h L0
        (rs.foldl
          (fun st p =>
            exec_handler env { st with log := st.log ++ [.invoked m.dest p.handler] }
              p.handler m)
          st) := by
    intro rs
    induction rs with
    | nil => intro _ st hst; exact hst
    | cons p rest ih =>
      intro hall st hst
      simp only [List.foldl_cons]
      apply ih (fun q hq hd => hall q (List.mem_cons_of_mem p hq) hd)
      have hst1 : unsub_invariant a h L0
          { st with log := st.log ++ [.invoked m.dest p.handler] } := by
        constructor
        · exact hst.1
        · intro h' hmem
          rcases List.mem_append.mp hmem with h1 | h2
          · exact hst.2 h' h1
          · have heq := List.mem_singleton.mp h2
            injection heq with ha hh'
            right
            rw [hh']
            exact hall p (List.mem_cons_self p rest) ha.symm
      constructor
      · intro q hq
        exact hst1.1 q (exec_handler_map_subset env _ p.handler m q hq)
      · intro h' hmem
        rcases exec_handler_log_mem env _ p.handler m (event_t.invoked a h') hmem with h1 | h2
        · exact hst1.2 h' h1
        · simp [event_is_invocation] at h2
  exact main (recipients s m) hrecip s hs

theorem do_process_inv (env : Nat → address_t) (a : address_t) (h : handler_base_t)
    (L0 : List event_t) :
    ∀ fuel s, unsub_invariant a h L0 s → unsub_invariant a h L0 (do_process env fuel s) := by
  intro fuel
  induction fuel with
  | zero => intro s hs; exact hs
  | succ n ih =>
    intro s hs
    rw [do_process]
    cases hq : s.queue with
    | nil => exact hs
    | cons mm rest =>
      apply ih
      apply deliver_one_inv
      exact ⟨hs.1, hs.2⟩

/-- Claim C2: processing the unsubscription confirmation for (h, a) removes
the entry from the supervisor's dispatch index; if the owner notification
(the behavior hook) fired, the index-removal event strictly precedes it in
the log; and from then on no drained message with destination a invokes a
handler equal to h. -/
theorem unsubscription_blocks_handler (env : Nat → address_t) (s : supervisor_state_t)
    (a : address_t) (h : handler_base_t)
    (hcount : s.subscription_map.countP (point_matches a h) ≤ 1) :
    (∀ p ∈ (exec_on_unsubscription s h a).subscription_map, point_matches a h p = false) ∧
    ((exec_on_unsubscription s h a).behavior_unsub_calls > s.behavior_unsub_calls →
      (exec_on_unsubscription s h a).log.drop s.log.length =
        [.index_removed a h, .owner_notified a h]) ∧
    (∀ fuel h',
      event_t.invoked a h' ∈ (do_process env fuel (exec_on_unsubscription s h a)).log →
      event_t.invoked a h' ∈ (exec_on_unsubscription s h a).log ∨
        handler_eq h' h = false) := by
  have hmap : ∀ p ∈ (exec_on_unsubscription s h a).subscription_map,
      point_matches a h p = false := by
    rw [exec_on_unsubscription_map]
    exact commit_unsubscription_clean s.subscription_map a h hcount
  refine ⟨hmap, ?_, ?_⟩
  · intro hfired
    by_cases hcond :
        ((remove_subscription_rel s.points a h).isEmpty &&
          s.state == state_t.SHUTTING_DOWN) = true
    · simp only [exec_on_unsubscription, behavior_on_unsubscription, shutdown_finish]
      rw [if_pos hcond]
      dsimp only
      rw [List.append_assoc, List.drop_left]
      rfl
    · simp only [exec_on_unsubscription, behavior_on_unsubscription,
        shutdown_finish] at hfired
      rw [if_neg hcond] at hfired
      dsimp only at hfired
      exact absurd hfired (lt_irrefl _)
  · intro fuel h' hmem
    have hinv : unsub_invariant a h (exec_on_unsubscription s h a).log
        (exec_on_unsubscription s h a) :=
      ⟨hmap, fun h' hm => Or.inl hm⟩
    exact (do_process_inv env a h _ fuel _ hinv).2 h' hmem

/-- Claim C2 witness: the on_start handler of the scenario supervisor at
OPERATIONAL has exactly one dispatch-index entry, and after processing its
unsubscription confirmation no drained message to the main address invokes
it. -/
theorem unsubscription_blocks_handler_witness :
    scenario_operational.subscription_map.countP
      (point_matches scenario_addr (mk_handler_base 1 mt_start ht_on_start)) ≤ 1 ∧
    (∀ p ∈ (exec_on_unsubscription scenario_operational
        (mk_handler_base 1 mt_start ht_on_start) scenario_addr).subscription_map,
      point_matches scenario_addr (mk_handler_base 1 mt_start ht_on_start) p = false) := by
  refine ⟨by decide, ?_⟩
  exact (unsubscription_blocks_handler scenario_env scenario_operational scenario_addr
    (mk_handler_base 1 mt_start ht_on_start) (by decide)).1

theorem exec_on_external_points (env : Nat → address_t) (s : supervisor_state_t)
    (h : handler_base_t) (t : address_t) :
    (exec_on_external_unsubscription env s h t).points =
      remove_subscription_rel s.points t h := by
  simp only [exec_on_external_unsubscription, behavior_on_unsubscription, shutdown_finish]
  split <;> rfl

theorem exec_on_external_queue_mem (env : Nat → address_t) (s : supervisor_state_t)
    (h : handler_base_t) (t : address_t) :
    { dest := env t.supervisor, payload := .commit_unsubscription h t } ∈
      (exec_on_external_unsubscription env s h t).queue := by
  simp only [exec_on_external_unsubscription, behavior_on_unsubscription, shutdown_finish]
  split <;> simp

/-- Claim C3: when the address's owning supervisor is the caller,
unsubscribe emits an unsubscription confirmation carrying handler, address
and the optional callback to the handler's owner, and processing that
confirmation removes the entry from the dispatch index; in every other case
an external unsubscription carrying handler and address goes to the owner's
address, and the owner's processing removes its local points entry and
replies a commit_unsubscription for (handler, address) to the remote
supervisor's address. -/
theorem unsubscribe_local_vs_external (env : Nat → address_t) (this_id : Nat)
    (owner_addr : address_t) (h : handler_base_t) (addr : address_t) (cb : Option Nat) :
    (addr.supervisor = this_id →
      actor_unsubscribe this_id owner_addr h addr cb =
        some { dest := owner_addr, payload := .unsubscription_confirmation h addr cb }) ∧
    (addr.supervisor ≠ this_id → cb = none →
      actor_unsubscribe this_id owner_addr h addr cb =
        some { dest := owner_addr, payload := .external_unsubscription h addr }) ∧
    (∀ (s : supervisor_state_t) (pre post : List subscription_point_t)
       (p : subscription_point_t),
      s.points = pre ++ p :: post → point_matches addr h p = true →
      (∀ q ∈ post, point_matches addr h q = false) →
      (exec_on_external_unsubscription env s h addr).points = pre ++ post ∧
      { dest := env addr.supervisor, payload := .commit_unsubscription h addr } ∈
        (exec_on_external_unsubscription env s h addr).queue) ∧
    (∀ s : supervisor_state_t, s.subscription_map.countP (point_matches addr h) ≤ 1 →
      ∀ p ∈ (exec_on_unsubscription s h addr).subscription_map,
        point_matches addr h p = false) := by
  refine ⟨?_, ?_, ?_, ?_⟩
  · intro hsup
    unfold actor_unsubscribe
    simp [hsup]
  · intro hsup hcb
    unfold actor_unsubscribe
    have : (addr.supervisor == this_id) = false := by simp [hsup]
    simp [this, hcb]
  · intro s pre post p hpts hp hpost
    constructor
    · rw [exec_on_external_points, remove_subscription_rel, hpts,
        remove_subscription_last pre post p addr h hp hpost]
      rfl
    · exact exec_on_external_queue_mem env s h addr
  · intro s hcount
    rw [exec_on_unsubscription_map]
    exact commit_unsubscription_clean s.subscription_map addr h hcount

/-- Claim C3 witness: a concrete local unsubscription and a concrete
cross-supervisor unsubscription exercising all four conjuncts. -/
theorem unsubscribe_local_vs_external_witness :
    actor_unsubscribe 1 scenario_addr (mk_handler_base 1 mt_start ht_on_start)
      scenario_addr none =
      some { dest := scenario_addr,
             payload := .unsubscription_confirmation
               (mk_handler_base 1 mt_start ht_on_start) scenario_addr none } ∧
    actor_unsubscribe 2 scenario_addr (mk_handler_base 1 mt_start ht_on_start)
      scenario_addr none =
      some { dest := scenario_addr,
             payload := .external_unsubscription
               (mk_handler_base 1 mt_start ht_on_start) scenario_addr } ∧
    (exec_on_external_unsubscription scenario_env
      { scenario_sup with
          points := [ { handler := mk_handler_base 1 mt_start ht_on_start,
                        address := scenario_addr } ] }
      (mk_handler_base 1 mt_start ht_on_start) scenario_addr).points = [] := by
  have hlocal := unsubscribe_local_vs_external scenario_env 1 scenario_addr
    (mk_handler_base 1 mt_start ht_on_start) scenario_addr none
  have hext := unsubscribe_local_vs_external scenario_env 2 scenario_addr
    (mk_handler_base 1 mt_start ht_on_start) scenario_addr none
  refine ⟨hlocal.1 (by decide), hext.2.1 (by decide) rfl, ?_⟩
  have := (hext.2.2.1
    { scenario_sup with
        points := [ { handler := mk_handler_base 1 mt_start ht_on_start,
                      address := scenario_addr } ] }
    [] []
    { handler := mk_handler_base 1 mt_start ht_on_start, address := scenario_addr }
    rfl (by decide) (by intro q hq; cases hq)).1
  simpa using this

/-- Claim C4: do_shutdown emits a shutdown_trigger carrying the actor's own
address to its supervisor's address; the supervisor answers the trigger
with a shutdown_request; on its receipt the actor stashes the request,
transitions to SHUTTING_DOWN (as long as unsubscription work remains), and
shutdown_start runs. -/
theorem do_shutdown_protocol (s : supervisor_state_t)
    (self_addr sup_addr reply_to target : address_t) :
    actor_do_shutdown self_addr sup_addr =
      { dest := sup_addr, payload := .shutdown_trigger self_addr } ∧
    (exec_on_shutdown_trigger s target).queue =
      s.queue ++ [{ dest := target, payload := .shutdown_request s.address }] ∧
    (exec_on_shutdown s reply_to).shutdown_request_stash = some reply_to ∧
    (s.points ≠ [] → (exec_on_shutdown s reply_to).state = state_t.SHUTTING_DOWN) ∧
    event_t.shutdown_started ∈ (exec_on_shutdown s reply_to).log := by
  refine ⟨rfl, rfl, ?_, ?_, ?_⟩
  · simp only [exec_on_shutdown, shutdown_finish]
    split <;> rfl
  · intro hne
    simp only [exec_on_shutdown, shutdown_finish]
    split
    · rename_i hempty
      exact absurd (List.isEmpty_iff.mp (by simpa using hempty)) hne
    · rfl
  · simp only [exec_on_shutdown, shutdown_finish]
    split <;> simp

/-- Claim C4 witness: the operational scenario supervisor with its ten
points stashes the request, moves to SHUTTING_DOWN, and logs the
shutdown_start call. -/
theorem do_shutdown_protocol_witness :
    scenario_operational.points ≠ [] ∧
    (exec_on_shutdown scenario_operational scenario_addr).state =
      state_t.SHUTTING_DOWN := by
  refine ⟨by decide, ?_⟩
  exact (do_shutdown_protocol scenario_operational scenario_addr scenario_addr
    scenario_addr scenario_addr).2.2.2.1 (by decide)

/-- Claim C5 counterexample: an actor in SHUTTING_DOWN with two points
processes an unsubscription confirmation; one point is removed yet the
behavior's on_unsubscription hook is not invoked, refuting the claim that
the hook is re-entered on every removal. -/
theorem behavior_hook_not_on_every_removal :
    (exec_on_unsubscription
      { id := 1, address := scenario_addr, state := .SHUTTING_DOWN
        points := [ { handler := mk_handler_base 1 mt_start ht_on_start,
                      address := scenario_addr }
                  , { handler := mk_handler_base 1 mt_trigger ht_on_shutdown_trigger,
                      address := scenario_addr } ]
        init_request_stash := true, shutdown_request_stash := some scenario_addr
        subscription_map := [], queue := [], active_timers := []
        behavior_unsub_calls := 0, log := [] }
      (mk_handler_base 1 mt_trigger ht_on_shutdown_trigger) scenario_addr).points.length = 1 ∧
    (exec_on_unsubscription
      { id := 1, address := scenario_addr, state := .SHUTTING_DOWN
        points := [ { handler := mk_handler_base 1 mt_start ht_on_start,
                      address := scenario_addr }
                  , { handler := mk_handler_base 1 mt_trigger ht_on_shutdown_trigger,
                      address := scenario_addr } ]
        init_request_stash := true, shutdown_request_stash := some scenario_addr
        subscription_map := [], queue := [], active_timers := []
        behavior_unsub_calls := 0, log := [] }
      (mk_handler_base 1 mt_trigger ht_on_shutdown_trigger) scenario_addr).behavior_unsub_calls = 0 := by
  decide

/-- Claim C5 amended: during shutdown the behavior's on_unsubscription hook
is entered exactly when a removal (local or external) leaves the points
list empty while the actor is SHUTTING_DOWN, which is how completion is
detected and shutdown_finish reached. -/
theorem behavior_hook_iff_points_empty (env : Nat → address_t)
    (s : supervisor_state_t) (h : handler_base_t) (a : address_t) :
    ((exec_on_unsubscription s h a).behavior_unsub_calls > s.behavior_unsub_calls ↔
      ((exec_on_unsubscription s h a).points = [] ∧ s.state = state_t.SHUTTING_DOWN)) ∧
    ((exec_on_external_unsubscription env s h a).behavior_unsub_calls >
        s.behavior_unsub_calls ↔
      ((exec_on_external_unsubscription env s h a).points = [] ∧
        s.state = state_t.SHUTTING_DOWN)) := by
  constructor
  · simp only [exec_on_unsubscription, behavior_on_unsubscription, shutdown_finish]
    split
    · rename_i hcond
      simp only [Bool.and_eq_true, List.isEmpty_iff, beq_iff_eq] at hcond
      simp [hcond.1, hcond.2]
    · rename_i hcond
      simp only [Bool.and_eq_true, List.isEmpty_iff, beq_iff_eq] at hcond
      constructor
      · intro hlt; exact absurd hlt (lt_irrefl _)
      · intro hrhs
        exact absurd (by
          constructor
          · exact hrhs.1
          · exact hrhs.2) hcond
  · simp only [exec_on_external_unsubscription, behavior_on_unsubscription, shutdown_finish]
    split
    · rename_i hcond
      simp only [Bool.and_eq_true, List.isEmpty_iff, beq_iff_eq] at hcond
      simp [hcond.1, hcond.2]
    · rename_i hcond
      simp only [Bool.and_eq_true, List.isEmpty_iff, beq_iff_eq] at hcond
      constructor
      · intro hlt; exact absurd hlt (lt_irrefl _)
      · intro hrhs
        exact absurd (by
          constructor
          · exact hrhs.1
          · exact hrhs.2) hcond

end Rotor


